import Mathlib

/-!
Shallow embedding of `src/app/models.py` of the adl-enterprise-portal
repository: the persistent entities, their declared field constraints
(max lengths, the email regex, enumerated fields, defaults), the
non-persistent create/update shapes, and — modelled from the spec, since
the repository contains no persistence layer — the insert operations that
enforce the declared unique and foreign-key constraints.
-/

set_option autoImplicit false

namespace Portal

/-- Abstract instants standing for Python `datetime` values; the claims
never inspect their structure. -/
abbrev Datetime := Nat

/-- Opaque JSON values, for the `Dict[str, Any]` / `List[str]` columns
(`settings`, `embed_config`, `configuration`, `content_metadata`,
`additional_info`).  The source places no structural constraint on them. -/
inductive JVal where
  | null : JVal
  | bool (b : Bool) : JVal
  | num (n : Int) : JVal
  | str (s : String) : JVal
  | arr (xs : List JVal) : JVal
  | obj (kvs : List (String × JVal)) : JVal

/-- A JSON object / `Dict[str, Any]` column; `Field(default={})` is `[]`. -/
abbrev JDict := List (String × JVal)

/-! ## Enumerated fields (models.py lines 9-41) -/

/-- `UserRole` enum: admin, manager, viewer, external, team_member. -/
inductive UserRole where
  | admin | manager | viewer | external | team_member
deriving DecidableEq

/-- String value of a `UserRole`, as stored (`str`-valued enum). -/
def UserRole.toStr : UserRole → String
  | .admin => "admin"
  | .manager => "manager"
  | .viewer => "viewer"
  | .external => "external"
  | .team_member => "team_member"

/-- Parsing an inbound string into `UserRole`; any string outside the
closed value set is rejected (pydantic `ValidationError`, modelled as
`none`). -/
def parseUserRole (s : String) : Option UserRole :=
  if s = "admin" then some .admin
  else if s = "manager" then some .manager
  else if s = "viewer" then some .viewer
  else if s = "external" then some .external
  else if s = "team_member" then some .team_member
  else none

/-- `ToolCategory` enum. -/
inductive ToolCategory where
  | app | platform | control_board
deriving DecidableEq

def parseToolCategory (s : String) : Option ToolCategory :=
  if s = "app" then some .app
  else if s = "platform" then some .platform
  else if s = "control_board" then some .control_board
  else none

/-- `OnboardingStatus` enum. -/
inductive OnboardingStatus where
  | pending | in_progress | completed
deriving DecidableEq

def parseOnboardingStatus (s : String) : Option OnboardingStatus :=
  if s = "pending" then some .pending
  else if s = "in_progress" then some .in_progress
  else if s = "completed" then some .completed
  else none

/-- `InductionStatus` enum. -/
inductive InductionStatus where
  | not_started | in_progress | completed
deriving DecidableEq

def parseInductionStatus (s : String) : Option InductionStatus :=
  if s = "not_started" then some .not_started
  else if s = "in_progress" then some .in_progress
  else if s = "completed" then some .completed
  else none

/-- `ContentType` enum. -/
inductive ContentType where
  | text | image | video | file | link
deriving DecidableEq

def parseContentType (s : String) : Option ContentType :=
  if s = "text" then some .text
  else if s = "image" then some .image
  else if s = "video" then some .video
  else if s = "file" then some .file
  else if s = "link" then some .link
  else none

/-! ## The email pattern (models.py line 48)

`User.email` carries `regex=r"^[a-zA-Z0-9_.+-]+@[a-zA-Z0-9-]+\.[a-zA-Z0-9-.]+$"`.
The three character classes below are the three bracket expressions; the
matcher realises the anchored pattern `L+ '@' M+ '.' R+`.  Because none of
the classes contains `'@'`, the `'@'` of the pattern is forced to the first
`'@'` of the subject, and because `M` excludes `'.'`, the literal dot is
forced to the first `'.'` after it, so the matcher below is exactly the
language of the regex. -/

def isEmailLocalChar (c : Char) : Bool :=
  c.isAlphanum || c = '_' || c = '.' || c = '+' || c = '-'

def isEmailHostChar (c : Char) : Bool :=
  c.isAlphanum || c = '-'

def isEmailTailChar (c : Char) : Bool :=
  c.isAlphanum || c = '-' || c = '.'

def emailMatchList (cs : List Char) : Bool :=
  let l := cs.takeWhile (· ≠ '@')
  match cs.dropWhile (· ≠ '@') with
  | '@' :: t =>
      let h := t.takeWhile (· ≠ '.')
      (match t.dropWhile (· ≠ '.') with
       | '.' :: r =>
           !l.isEmpty && l.all isEmailLocalChar &&
           !h.isEmpty && h.all isEmailHostChar &&
           !r.isEmpty && r.all isEmailTailChar
       | _ => false)
  | _ => false

/-- Whether a string matches the declared `User.email` regex. -/
def emailMatch (s : String) : Bool := emailMatchList s.data

/-! ## Length and decimal constraints -/

/-- The `max_length=L` check on a string field: pydantic accepts a value
iff its length is at most `L`. -/
def maxLenOk (L : Nat) (s : String) : Bool := decide (s.length ≤ L)

/-- The `max_length=L` check on an `Optional[str]` field: `None` always
passes, a present string is length-checked. -/
def optLenOk (L : Nat) (o : Option String) : Bool := o.all (maxLenOk L)

/-- The distinct `max_length` bounds declared across `models.py`
(20, 50, 100, 200, 255, 500, 1000, 2000, 10000). -/
def declaredMaxLens : List Nat := [20, 50, 100, 200, 255, 500, 1000, 2000, 10000]

/-- Number of digits in the decimal digit tuple of a natural number
(`Decimal(n).as_tuple()` has one digit for `0`). -/
def digitsLen (n : Nat) : Nat := (Nat.toDigits 10 n).length

/-- A decimal literal as Python's `Decimal` represents it: a signed digit
tuple (here folded into the mantissa) and an exponent; the value is
`mantissa * 10 ^ exponent`. -/
structure Dec where
  mantissa : Int
  exponent : Int
deriving DecidableEq

/-- The `max_digits` / `decimal_places` validation of a `Decimal` field:
from the exponent and digit-tuple length it derives the total digit count
and the count of decimal places, and requires the total digits, the
decimal places, and the whole digits each within bound. -/
def decimalOk (max_digits decimal_places : Nat) (d : Dec) : Bool :=
  let dt := digitsLen d.mantissa.natAbs
  let digits := if 0 ≤ d.exponent then dt + d.exponent.toNat else max dt d.exponent.natAbs
  let decimals := if 0 ≤ d.exponent then 0 else d.exponent.natAbs
  decide (digits ≤ max_digits) && decide (decimals ≤ decimal_places) &&
    decide (digits - decimals ≤ max_digits - decimal_places)

/-- The constraint on `InductionProgress.completion_percentage`
(models.py line 253): `max_digits=5, decimal_places=2`. -/
def completionPercentageOk (d : Dec) : Bool := decimalOk 5 2 d

/-! ## Persisted entities (the `table=True` models)

Primary keys are `Optional[int]` defaulting to `None` and assigned by the
persistence layer, hence `Option Nat` here.  The ORM relationship
attributes are back-references materialised by the ORM, not columns; per
spec section 9 they are realised as lookups by foreign key and carry no
state of their own, so they have no counterpart in the rows. -/

structure User where
  id : Option Nat
  email : String
  first_name : String
  last_name : String
  is_active : Bool
  created_at : Datetime
  updated_at : Option Datetime
deriving DecidableEq

structure Project where
  id : Option Nat
  name : String
  description : String
  code : String
  start_date : Option Datetime
  end_date : Option Datetime
  is_active : Bool
  created_by_id : Nat
  created_at : Datetime
  updated_at : Option Datetime
  settings : JDict

structure ProjectMembership where
  id : Option Nat
  user_id : Nat
  project_id : Nat
  role : UserRole
  joined_at : Datetime
  is_active : Bool

structure Tool where
  id : Option Nat
  name : String
  description : String
  category : ToolCategory
  icon_url : Option String
  external_url : Option String
  is_embeddable : Bool
  embed_config : JDict
  is_active : Bool
  created_at : Datetime

structure ProjectTool where
  id : Option Nat
  project_id : Nat
  tool_id : Nat
  is_enabled : Bool
  configuration : JDict
  required_roles : List String
  created_at : Datetime

structure NewStarterRequest where
  id : Option Nat
  project_id : Nat
  manager_id : Nat
  starter_email : String
  starter_first_name : String
  starter_last_name : String
  start_date : Datetime
  role : UserRole
  department : Option String
  position : Option String
  line_manager : Option String
  notes : Option String
  status : OnboardingStatus
  created_at : Datetime
  updated_at : Option Datetime

structure OnboardingDetails where
  id : Option Nat
  request_id : Nat
  new_starter_id : Nat
  phone_number : Option String
  address : Option String
  emergency_contact_name : Option String
  emergency_contact_phone : Option String
  previous_experience : Option String
  skills : List String
  certifications : List String
  accessibility_requirements : Option String
  dietary_requirements : Option String
  additional_info : JDict
  completed_at : Datetime

structure InductionChapter where
  id : Option Nat
  project_id : Nat
  title : String
  description : Option String
  order_index : Int
  is_required : Bool
  is_active : Bool
  created_at : Datetime

structure InductionSection where
  id : Option Nat
  chapter_id : Nat
  title : String
  order_index : Int
  is_active : Bool
  created_at : Datetime

structure InductionContent where
  id : Option Nat
  section_id : Nat
  content_type : ContentType
  title : Option String
  content : Option String
  url : Option String
  file_path : Option String
  embed_code : Option String
  content_metadata : JDict
  order_index : Int
  is_active : Bool
  created_at : Datetime

structure InductionProgress where
  id : Option Nat
  user_id : Nat
  chapter_id : Nat
  status : InductionStatus
  started_at : Option Datetime
  completed_at : Option Datetime
  completion_percentage : Dec
  notes : Option String

structure Dashboard where
  id : Option Nat
  project_id : Nat
  name : String
  type : String
  configuration : JDict
  required_roles : List String
  is_active : Bool
  created_at : Datetime

/-! ## Non-persistent create and update shapes (models.py lines 278-381) -/

structure UserCreate where
  email : String
  first_name : String
  last_name : String

structure UserUpdate where
  first_name : Option String
  last_name : Option String
  is_active : Option Bool

structure ProjectCreate where
  name : String
  description : String
  code : String
  start_date : Option Datetime
  end_date : Option Datetime

/-- `ProjectUpdate`: every field optional; an outer `none` means the field
is absent from the update payload.  The nullable columns keep their own
inner `Option`. -/
structure ProjectUpdate where
  name : Option String
  description : Option String
  start_date : Option (Option Datetime)
  end_date : Option (Option Datetime)
  is_active : Option Bool
  settings : Option JDict

structure ProjectMembershipCreate where
  user_id : Nat
  project_id : Nat
  role : UserRole

structure ToolCreate where
  name : String
  description : String
  category : ToolCategory
  icon_url : Option String
  external_url : Option String
  is_embeddable : Bool
  embed_config : JDict

structure NewStarterRequestCreate where
  project_id : Nat
  starter_email : String
  starter_first_name : String
  starter_last_name : String
  start_date : Datetime
  role : UserRole
  department : Option String
  position : Option String
  line_manager : Option String
  notes : Option String

structure OnboardingDetailsCreate where
  request_id : Nat
  phone_number : Option String
  address : Option String
  emergency_contact_name : Option String
  emergency_contact_phone : Option String
  previous_experience : Option String
  skills : List String
  certifications : List String
  accessibility_requirements : Option String
  dietary_requirements : Option String
  additional_info : JDict

structure InductionChapterCreate where
  project_id : Nat
  title : String
  description : Option String
  order_index : Int
  is_required : Bool

structure InductionSectionCreate where
  chapter_id : Nat
  title : String
  order_index : Int

structure InductionContentCreate where
  section_id : Nat
  content_type : ContentType
  title : Option String
  content : Option String
  url : Option String
  file_path : Option String
  embed_code : Option String
  content_metadata : JDict
  order_index : Int

structure DashboardCreate where
  project_id : Nat
  name : String
  type : String
  configuration : JDict
  required_roles : List String

/-! ## Field validation of the shapes the claims inspect

Each validator is the conjunction of exactly the constraints declared on
the shape's fields in `models.py`.  `User.email` (line 48) carries both
`max_length=255` and the regex; `UserCreate.email` (line 279) carries only
`max_length=255` and no regex; `NewStarterRequest.starter_email` and
`NewStarterRequestCreate.starter_email` carry only `max_length=255`. -/

def validateUser (u : User) : Bool :=
  emailMatch u.email && maxLenOk 255 u.email &&
  maxLenOk 100 u.first_name && maxLenOk 100 u.last_name

def validateUserCreate (c : UserCreate) : Bool :=
  maxLenOk 255 c.email && maxLenOk 100 c.first_name && maxLenOk 100 c.last_name

def validateNewStarterRequestCreate (c : NewStarterRequestCreate) : Bool :=
  maxLenOk 255 c.starter_email &&
  maxLenOk 100 c.starter_first_name && maxLenOk 100 c.starter_last_name &&
  optLenOk 100 c.department && optLenOk 100 c.position &&
  optLenOk 200 c.line_manager && optLenOk 1000 c.notes

/-- Parsing an inbound `ProjectMembershipCreate` payload whose `role` key
may be absent (`none`): absent takes the declared default `team_member`
(models.py line 310); a present string must parse into the closed
`UserRole` value set. -/
def parseMembershipPayload (user_id project_id : Nat) (role : Option String) :
    Option ProjectMembershipCreate :=
  match role with
  | none => some ⟨user_id, project_id, .team_member⟩
  | some s => (parseUserRole s).map fun r => ⟨user_id, project_id, r⟩

/-! ## Partial update application

Modelled from the spec: the repository's source declares only the update
shapes; the operation that maps an update payload onto a persisted row
lives in an out-of-scope API layer.  Per spec section 4.1, "only fields
explicitly present in the update payload overwrite the persisted row" and
absent fields leave the stored value untouched; a field absent from the
shape altogether can never be overwritten. -/

/-- Modelled from the spec: apply a `UserUpdate` payload to a persisted
`User` row with partial-update semantics. -/
def applyUserUpdate (u : User) (up : UserUpdate) : User :=
  { u with
    first_name := up.first_name.getD u.first_name
    last_name := up.last_name.getD u.last_name
    is_active := up.is_active.getD u.is_active }

/-- Modelled from the spec: apply a `ProjectUpdate` payload to a persisted
`Project` row with partial-update semantics. -/
def applyProjectUpdate (p : Project) (up : ProjectUpdate) : Project :=
  { p with
    name := up.name.getD p.name
    description := up.description.getD p.description
    start_date := up.start_date.getD p.start_date
    end_date := up.end_date.getD p.end_date
    is_active := up.is_active.getD p.is_active
    settings := up.settings.getD p.settings }

/-! ## Row construction from a create payload

Modelled from the spec (sections 6 and 8): the persistence layer, out of
scope of the repository, maps a validated create shape onto a persisted
row, assigns the fresh `id` and `created_at`, and fills every column the
shape does not carry with its default declared in `models.py`.  The
`ofRequired` constructors build the create shape from only its
non-defaulted fields, giving every defaulted field of the shape its
declared default — the parse of a payload omitting those keys. -/

def ProjectCreate.ofRequired (name code : String) : ProjectCreate :=
  ⟨name, "", code, none, none⟩

def ProjectMembershipCreate.ofRequired (user_id project_id : Nat) :
    ProjectMembershipCreate :=
  ⟨user_id, project_id, .team_member⟩

def ToolCreate.ofRequired (name : String) (category : ToolCategory) : ToolCreate :=
  ⟨name, "", category, none, none, false, []⟩

def NewStarterRequestCreate.ofRequired (project_id : Nat)
    (starter_email starter_first_name starter_last_name : String)
    (start_date : Datetime) : NewStarterRequestCreate :=
  ⟨project_id, starter_email, starter_first_name, starter_last_name,
   start_date, .team_member, none, none, none, none⟩

def OnboardingDetailsCreate.ofRequired (request_id : Nat) : OnboardingDetailsCreate :=
  ⟨request_id, none, none, none, none, none, [], [], none, none, []⟩

def InductionChapterCreate.ofRequired (project_id : Nat) (title : String) :
    InductionChapterCreate :=
  ⟨project_id, title, none, 0, true⟩

def InductionSectionCreate.ofRequired (chapter_id : Nat) (title : String) :
    InductionSectionCreate :=
  ⟨chapter_id, title, 0⟩

def InductionContentCreate.ofRequired (section_id : Nat) (content_type : ContentType) :
    InductionContentCreate :=
  ⟨section_id, content_type, none, none, none, none, none, [], 0⟩

def DashboardCreate.ofRequired (project_id : Nat) (name type : String) :
    DashboardCreate :=
  ⟨project_id, name, type, [], []⟩

/-- Modelled from the spec: build a `User` row from a `UserCreate`; the
columns absent from the shape take their `models.py` defaults
(`is_active=True`, `updated_at=None`). -/
def userFromCreate (id : Nat) (now : Datetime) (c : UserCreate) : User :=
  ⟨some id, c.email, c.first_name, c.last_name, true, now, none⟩

/-- Modelled from the spec: build a `Project` row; `is_active=True`,
`settings={}`. -/
def projectFromCreate (id : Nat) (now : Datetime) (created_by_id : Nat)
    (c : ProjectCreate) : Project :=
  ⟨some id, c.name, c.description, c.code, c.start_date, c.end_date,
   true, created_by_id, now, none, []⟩

/-- Modelled from the spec: build a `ProjectMembership` row;
`is_active=True`. -/
def membershipFromCreate (id : Nat) (now : Datetime) (c : ProjectMembershipCreate) :
    ProjectMembership :=
  ⟨some id, c.user_id, c.project_id, c.role, now, true⟩

/-- Modelled from the spec: build a `Tool` row; `is_active=True`. -/
def toolFromCreate (id : Nat) (now : Datetime) (c : ToolCreate) : Tool :=
  ⟨some id, c.name, c.description, c.category, c.icon_url, c.external_url,
   c.is_embeddable, c.embed_config, true, now⟩

/-- A `ProjectTool` row built from only its foreign keys, every other
column at its `models.py` default (`is_enabled=True`, `configuration={}`,
`required_roles=[]`); the source declares no create shape for it. -/
def mkProjectTool (id : Nat) (now : Datetime) (project_id tool_id : Nat) : ProjectTool :=
  ⟨some id, project_id, tool_id, true, [], [], now⟩

/-- Modelled from the spec: build a `NewStarterRequest` row; `status`
takes its declared default `pending`, `updated_at=None`; the manager id
comes from the out-of-scope session context. -/
def nsrFromCreate (id : Nat) (now : Datetime) (manager_id : Nat)
    (c : NewStarterRequestCreate) : NewStarterRequest :=
  ⟨some id, c.project_id, manager_id, c.starter_email, c.starter_first_name,
   c.starter_last_name, c.start_date, c.role, c.department, c.position,
   c.line_manager, c.notes, .pending, now, none⟩

/-- Modelled from the spec: build an `OnboardingDetails` row;
`completed_at` takes the creation instant per its `default_factory`. -/
def onboardingFromCreate (id : Nat) (now : Datetime) (new_starter_id : Nat)
    (c : OnboardingDetailsCreate) : OnboardingDetails :=
  ⟨some id, c.request_id, new_starter_id, c.phone_number, c.address,
   c.emergency_contact_name, c.emergency_contact_phone, c.previous_experience,
   c.skills, c.certifications, c.accessibility_requirements,
   c.dietary_requirements, c.additional_info, now⟩

/-- Modelled from the spec: build an `InductionChapter` row;
`is_active=True`. -/
def chapterFromCreate (id : Nat) (now : Datetime) (c : InductionChapterCreate) :
    InductionChapter :=
  ⟨some id, c.project_id, c.title, c.description, c.order_index, c.is_required,
   true, now⟩

/-- Modelled from the spec: build an `InductionSection` row;
`is_active=True`. -/
def sectionFromCreate (id : Nat) (now : Datetime) (c : InductionSectionCreate) :
    InductionSection :=
  ⟨some id, c.chapter_id, c.title, c.order_index, true, now⟩

/-- Modelled from the spec: build an `InductionContent` row;
`is_active=True`. -/
def contentFromCreate (id : Nat) (now : Datetime) (c : InductionContentCreate) :
    InductionContent :=
  ⟨some id, c.section_id, c.content_type, c.title, c.content, c.url,
   c.file_path, c.embed_code, c.content_metadata, c.order_index, true, now⟩

/-- An `InductionProgress` row built from only its foreign keys, every
other column at its `models.py` default (`status=not_started`,
`completion_percentage=Decimal("0")`); the source declares no create
shape for it. -/
def mkInductionProgress (id : Nat) (user_id chapter_id : Nat) : InductionProgress :=
  ⟨some id, user_id, chapter_id, .not_started, none, none, ⟨0, 0⟩, none⟩

/-- Modelled from the spec: build a `Dashboard` row; `is_active=True`. -/
def dashboardFromCreate (id : Nat) (now : Datetime) (c : DashboardCreate) : Dashboard :=
  ⟨some id, c.project_id, c.name, c.type, c.configuration, c.required_roles,
   true, now⟩

/-! ## The persistent store and its insert operations

Modelled from the spec (sections 4.1, 6 and 7): the repository declares
the constraints (`unique=True` on `User.email`, `Project.code`,
`OnboardingDetails.request_id`; `foreign_key=...` on the reference
columns) but contains no persistence layer; per the spec the store must
reject an insert that collides on a unique column with `ConflictError`
and an insert whose foreign key references no existing row with
`ReferenceError`, leaving the store unchanged. -/

/-- The persistence-time errors of spec section 7 that the claims
exercise. -/
inductive DBError where
  | conflict
  | reference
deriving DecidableEq

structure Store where
  nextId : Nat
  users : List User
  projects : List Project
  new_starter_requests : List NewStarterRequest
  onboarding_details : List OnboardingDetails

/-- The empty store. -/
def Store.empty : Store := ⟨0, [], [], [], []⟩

/-- Whether a user row with the given id is persisted. -/
def Store.hasUserId (db : Store) (i : Nat) : Bool :=
  db.users.any fun v => v.id == some i

/-- Whether a project row with the given id is persisted. -/
def Store.hasProjectId (db : Store) (i : Nat) : Bool :=
  db.projects.any fun p => p.id == some i

/-- Whether a new-starter-request row with the given id is persisted. -/
def Store.hasRequestId (db : Store) (i : Nat) : Bool :=
  db.new_starter_requests.any fun r => r.id == some i

/-- Modelled from the spec: insert a `User` row; a collision on the
unique `email` column fails with `ConflictError` and stores nothing. -/
def insertUser (db : Store) (u : User) : Store × Option DBError :=
  if db.users.any fun v => v.email == u.email then (db, some .conflict)
  else
    ({ db with
        nextId := db.nextId + 1
        users := db.users ++ [{ u with id := some db.nextId }] }, none)

/-- Modelled from the spec: insert a `Project` row; `created_by_id` must
reference an existing user (`ReferenceError` otherwise) and the unique
`code` column must not collide (`ConflictError` otherwise). -/
def insertProject (db : Store) (p : Project) : Store × Option DBError :=
  if ¬ db.hasUserId p.created_by_id then (db, some .reference)
  else if db.projects.any fun q => q.code == p.code then (db, some .conflict)
  else
    ({ db with
        nextId := db.nextId + 1
        projects := db.projects ++ [{ p with id := some db.nextId }] }, none)

/-- Modelled from the spec: insert a `NewStarterRequest` row; both
foreign keys must reference existing rows. -/
def insertNewStarterRequest (db : Store) (r : NewStarterRequest) :
    Store × Option DBError :=
  if ¬ db.hasProjectId r.project_id then (db, some .reference)
  else if ¬ db.hasUserId r.manager_id then (db, some .reference)
  else
    ({ db with
        nextId := db.nextId + 1
        new_starter_requests := db.new_starter_requests ++ [{ r with id := some db.nextId }] },
     none)

/-- Modelled from the spec: insert an `OnboardingDetails` row; the
`request_id` and `new_starter_id` foreign keys must reference existing
rows, and the unique `request_id` column must not collide. -/
def insertOnboardingDetails (db : Store) (o : OnboardingDetails) :
    Store × Option DBError :=
  if ¬ db.hasRequestId o.request_id then (db, some .reference)
  else if ¬ db.hasUserId o.new_starter_id then (db, some .reference)
  else if db.onboarding_details.any fun q => q.request_id == o.request_id then
    (db, some .conflict)
  else
    ({ db with
        nextId := db.nextId + 1
        onboarding_details := db.onboarding_details ++ [{ o with id := some db.nextId }] },
     none)

/-! ## Concrete sample rows and stores used by the instance theorems -/

def adaUser : User := ⟨none, "a@example.com", "Ada", "Lovelace", true, 0, none⟩

def bobUser : User := ⟨none, "a@example.com", "Bob", "Builder", true, 0, none⟩

/-- The store after the first successful insert of `adaUser`. -/
def dbWithAda : Store := (insertUser Store.empty adaUser).1

/-- A project with `code="PRJ1"` created by the given user id. -/
def prj1 (creator : Nat) : Project :=
  ⟨none, "Alpha", "", "PRJ1", none, none, true, creator, 0, none, []⟩

/-- The store after also inserting the `PRJ1` project. -/
def dbUsersAndPrj : Store := (insertProject dbWithAda (prj1 0)).1

def nsr0 : NewStarterRequest :=
  ⟨none, 0, 0, "s@example.com", "Sam", "Starter", 0, .team_member,
   none, none, none, none, .pending, 0, none⟩

/-- An onboarding-details row with only its foreign keys populated. -/
def ob1 (rid uid : Nat) : OnboardingDetails :=
  ⟨none, rid, uid, none, none, none, none, none, [], [], none, none, [], 0⟩

/-- A store holding one user (id 0), one request (id 1) and an
onboarding-details row already bound to request 1. -/
def obStore : Store :=
  ⟨3, [{ adaUser with id := some 0 }], [], [{ nsr0 with id := some 1 }],
   [{ ob1 1 0 with id := some 2 }]⟩

/-! ## The claims -/

/-- C1 (amended): for the persisted `User` model, validation fails
whenever the email does not match the declared pattern and succeeds on
format grounds exactly when it matches; the `UserCreate` shape declares
no pattern, so its validation is equivalent to the three length bounds
alone and is independent of email format. -/
theorem userEmailFormat_validation :
    (∀ u : User, emailMatch u.email = false → validateUser u = false) ∧
    (∀ u : User, validateUser u = true ↔
      (emailMatch u.email = true ∧ u.email.length ≤ 255 ∧
       u.first_name.length ≤ 100 ∧ u.last_name.length ≤ 100)) ∧
    (∀ c : UserCreate, validateUserCreate c = true ↔
      (c.email.length ≤ 255 ∧ c.first_name.length ≤ 100 ∧
       c.last_name.length ≤ 100)) := by
  refine ⟨fun u h => ?_, fun u => ?_, fun c => ?_⟩
  · simp [validateUser, h]
  · simp [validateUser, maxLenOk, Bool.and_eq_true, and_assoc]
  · simp [validateUserCreate, maxLenOk, Bool.and_eq_true, and_assoc]

/-- C1 instance: a `User` row whose email fails the pattern fails
validation. -/
theorem userEmailFormat_validation_inst :
    validateUser ⟨none, "bad-address", "Ada", "Lovelace", true, 0, none⟩ = false :=
  userEmailFormat_validation.1 ⟨none, "bad-address", "Ada", "Lovelace", true, 0, none⟩ rfl

/-- C1 counterexample: `"nodomain"` does not match the email pattern, yet
a `UserCreate` payload carrying it as `email` passes validation, because
`UserCreate.email` (models.py line 279) declares only `max_length=255`
and no regex; so the claim's extension of format checking to the
`UserCreate` shape is false. -/
theorem userCreate_email_format_not_checked :
    emailMatch "nodomain" = false ∧
    validateUserCreate ⟨"nodomain", "Ada", "Lovelace"⟩ = true :=
  ⟨rfl, rfl⟩

/-- C2: applying a `UserUpdate` overwrites exactly the fields present in
the payload: every column outside the shape (`id`, `email`,
`created_at`, `updated_at`) is untouched, an absent (`none`) field keeps
the stored value, a present field takes the payload value, and the
payload carrying only `is_active=false` flips only `is_active`. -/
theorem userUpdate_partial_semantics (u : User) (up : UserUpdate) :
    ((applyUserUpdate u up).id = u.id ∧
     (applyUserUpdate u up).email = u.email ∧
     (applyUserUpdate u up).created_at = u.created_at ∧
     (applyUserUpdate u up).updated_at = u.updated_at) ∧
    (up.first_name = none → (applyUserUpdate u up).first_name = u.first_name) ∧
    (∀ v, up.first_name = some v → (applyUserUpdate u up).first_name = v) ∧
    (up.last_name = none → (applyUserUpdate u up).last_name = u.last_name) ∧
    (∀ v, up.last_name = some v → (applyUserUpdate u up).last_name = v) ∧
    (up.is_active = none → (applyUserUpdate u up).is_active = u.is_active) ∧
    (∀ b, up.is_active = some b → (applyUserUpdate u up).is_active = b) ∧
    applyUserUpdate u ⟨none, none, some false⟩ = { u with is_active := false } :=
  ⟨⟨rfl, rfl, rfl, rfl⟩,
   fun h => by simp [applyUserUpdate, h],
   fun v h => by simp [applyUserUpdate, h],
   fun h => by simp [applyUserUpdate, h],
   fun v h => by simp [applyUserUpdate, h],
   fun h => by simp [applyUserUpdate, h],
   fun b h => by simp [applyUserUpdate, h],
   rfl⟩

/-- C2 instance: on a concrete user, a payload with `first_name` present
and `last_name` absent overwrites the former, keeps the latter, and never
touches `email`. -/
theorem userUpdate_partial_semantics_inst :
    (applyUserUpdate ⟨some 1, "a@example.com", "Ada", "Lovelace", true, 0, none⟩
        ⟨some "Grace", none, some false⟩).first_name = "Grace" ∧
    (applyUserUpdate ⟨some 1, "a@example.com", "Ada", "Lovelace", true, 0, none⟩
        ⟨some "Grace", none, some false⟩).last_name = "Lovelace" ∧
    (applyUserUpdate ⟨some 1, "a@example.com", "Ada", "Lovelace", true, 0, none⟩
        ⟨some "Grace", none, some false⟩).email = "a@example.com" :=
  ⟨(userUpdate_partial_semantics _ _).2.2.1 "Grace" rfl,
   (userUpdate_partial_semantics _ _).2.2.2.1 rfl,
   (userUpdate_partial_semantics _ _).1.2.1⟩

/-- C3: inserting a row that collides on a unique column (`User.email`,
`Project.code`, `OnboardingDetails.request_id`) fails with
`ConflictError` and leaves the store unchanged, while a non-colliding
insert succeeds (the foreign keys being satisfied where declared). -/
theorem unique_constraints_conflict :
    (∀ (db : Store) (u : User),
        (db.users.any fun v => v.email == u.email) = true →
        insertUser db u = (db, some .conflict)) ∧
    (∀ (db : Store) (u : User),
        (db.users.any fun v => v.email == u.email) = false →
        (insertUser db u).2 = none) ∧
    (∀ (db : Store) (p : Project),
        db.hasUserId p.created_by_id = true →
        (db.projects.any fun q => q.code == p.code) = true →
        insertProject db p = (db, some .conflict)) ∧
    (∀ (db : Store) (p : Project),
        db.hasUserId p.created_by_id = true →
        (db.projects.any fun q => q.code == p.code) = false →
        (insertProject db p).2 = none) ∧
    (∀ (db : Store) (o : OnboardingDetails),
        db.hasRequestId o.request_id = true →
        db.hasUserId o.new_starter_id = true →
        (db.onboarding_details.any fun q => q.request_id == o.request_id) = true →
        insertOnboardingDetails db o = (db, some .conflict)) := by
  refine ⟨fun db u h => ?_, fun db u h => ?_, fun db p h1 h2 => ?_,
          fun db p h1 h2 => ?_, fun db o h1 h2 h3 => ?_⟩ <;>
    simp [insertUser, insertProject, insertOnboardingDetails, *]

/-- C3 instance: into the empty store, inserting a user with email
`a@example.com` succeeds; a second user with the same email then fails
with `ConflictError` and the store is unchanged; likewise the first
project with `code="PRJ1"` succeeds and a second one fails. -/
theorem unique_constraints_conflict_inst :
    (insertUser Store.empty adaUser).2 = none ∧
    insertUser dbWithAda bobUser = (dbWithAda, some .conflict) ∧
    (insertProject dbWithAda (prj1 0)).2 = none ∧
    insertProject dbUsersAndPrj (prj1 0) = (dbUsersAndPrj, some .conflict) ∧
    insertOnboardingDetails obStore (ob1 1 0) = (obStore, some .conflict) :=
  ⟨unique_constraints_conflict.2.1 Store.empty adaUser rfl,
   unique_constraints_conflict.1 dbWithAda bobUser rfl,
   unique_constraints_conflict.2.2.2.1 dbWithAda (prj1 0) rfl rfl,
   unique_constraints_conflict.2.2.1 dbUsersAndPrj (prj1 0) rfl rfl,
   unique_constraints_conflict.2.2.2.2 obStore (ob1 1 0) rfl rfl rfl⟩

/-- C4: an insert whose foreign key references no persisted row of the
target entity fails with `ReferenceError` and leaves the store
unchanged; when the referenced rows exist the insert never fails with
`ReferenceError`. -/
theorem foreign_key_reference_error :
    (∀ (db : Store) (o : OnboardingDetails),
        db.hasRequestId o.request_id = false →
        insertOnboardingDetails db o = (db, some .reference)) ∧
    (∀ (db : Store) (o : OnboardingDetails),
        db.hasRequestId o.request_id = true →
        db.hasUserId o.new_starter_id = true →
        (insertOnboardingDetails db o).2 ≠ some .reference) ∧
    (∀ (db : Store) (p : Project),
        db.hasUserId p.created_by_id = false →
        insertProject db p = (db, some .reference)) ∧
    (∀ (db : Store) (r : NewStarterRequest),
        db.hasProjectId r.project_id = false ∨ db.hasUserId r.manager_id = false →
        insertNewStarterRequest db r = (db, some .reference)) := by
  refine ⟨fun db o h => ?_, fun db o h1 h2 => ?_, fun db p h => ?_, fun db r h => ?_⟩
  · simp [insertOnboardingDetails, h]
  · unfold insertOnboardingDetails
    rw [if_neg (by simp [h1]), if_neg (by simp [h2])]
    split <;> simp
  · simp [insertProject, h]
  · rcases h with h | h
    · simp [insertNewStarterRequest, h]
    · by_cases hp : db.hasProjectId r.project_id <;>
        simp [insertNewStarterRequest, hp, h]

/-- C4 instance: creating an `OnboardingDetails` row whose `request_id`
is `999999` against the empty store fails with `ReferenceError`. -/
theorem foreign_key_reference_error_inst :
    insertOnboardingDetails Store.empty (ob1 999999 0) =
      (Store.empty, some .reference) :=
  foreign_key_reference_error.1 Store.empty (ob1 999999 0) rfl

/-- C5: each enumerated field accepts a string exactly when it lies in
the declared closed value set; a `ProjectMembershipCreate` payload with
`role="not_a_role"` fails to parse, `role="viewer"` parses, and the
stored role reads back as `"viewer"` unchanged. -/
theorem enum_closed_sets :
    (∀ s, (parseUserRole s).isSome = true ↔
      (s = "admin" ∨ s = "manager" ∨ s = "viewer" ∨ s = "external" ∨
       s = "team_member")) ∧
    (∀ s, (parseToolCategory s).isSome = true ↔
      (s = "app" ∨ s = "platform" ∨ s = "control_board")) ∧
    (∀ s, (parseOnboardingStatus s).isSome = true ↔
      (s = "pending" ∨ s = "in_progress" ∨ s = "completed")) ∧
    (∀ s, (parseInductionStatus s).isSome = true ↔
      (s = "not_started" ∨ s = "in_progress" ∨ s = "completed")) ∧
    (∀ s, (parseContentType s).isSome = true ↔
      (s = "text" ∨ s = "image" ∨ s = "video" ∨ s = "file" ∨ s = "link")) ∧
    (∀ user_id project_id,
      parseMembershipPayload user_id project_id (some "not_a_role") = none) ∧
    (∀ user_id project_id,
      parseMembershipPayload user_id project_id (some "viewer") =
        some ⟨user_id, project_id, .viewer⟩) ∧
    (∀ i t user_id project_id,
      UserRole.toStr
        (membershipFromCreate i t ⟨user_id, project_id, .viewer⟩).role = "viewer") := by
  refine ⟨fun s => ?_, fun s => ?_, fun s => ?_, fun s => ?_, fun s => ?_,
          fun _ _ => rfl, fun _ _ => rfl, fun _ _ _ _ => rfl⟩
  · unfold parseUserRole; split_ifs <;> simp_all
  · unfold parseToolCategory; split_ifs <;> simp_all
  · unfold parseOnboardingStatus; split_ifs <;> simp_all
  · unfold parseInductionStatus; split_ifs <;> simp_all
  · unfold parseContentType; split_ifs <;> simp_all

/-- C6: for every declared `max_length` bound `L`, a string of length
exactly `L` passes the length check and one of length `L+1` fails it;
and a shape validator (here `UserCreate`) is exactly the conjunction of
its declared length bounds. -/
theorem max_length_boundary :
    (∀ L ∈ declaredMaxLens, ∀ s : String,
        (s.length = L → maxLenOk L s = true) ∧
        (s.length = L + 1 → maxLenOk L s = false)) ∧
    (∀ c : UserCreate, validateUserCreate c = true ↔
        (c.email.length ≤ 255 ∧ c.first_name.length ≤ 100 ∧
         c.last_name.length ≤ 100)) := by
  constructor
  · intro L _ s
    constructor
    · intro h; simp [maxLenOk, h]
    · intro h; simp only [maxLenOk, h, decide_eq_false_iff_not]; omega
  · intro c; simp [validateUserCreate, maxLenOk, Bool.and_eq_true, and_assoc]

/-- C6 instance: at the declared bound 20 (`Project.code`,
`OnboardingDetails.phone_number`), a 20-character value passes and a
21-character value fails. -/
theorem max_length_boundary_inst :
    maxLenOk 20 "aaaaaaaaaaaaaaaaaaaa" = true ∧
    maxLenOk 20 "aaaaaaaaaaaaaaaaaaaaa" = false :=
  ⟨(max_length_boundary.1 20 (by decide) "aaaaaaaaaaaaaaaaaaaa").1 rfl,
   (max_length_boundary.1 20 (by decide) "aaaaaaaaaaaaaaaaaaaaa").2 rfl⟩

/-- C7: a row built from a create payload that omits every defaulted
field holds each declared default: `is_active=true`, membership and
new-starter `role=team_member`, request `status=pending`, progress
`status=not_started`, and every JSON map/sequence column empty. -/
theorem create_defaults (i user_id project_id tool_id manager_id chapter_id
    section_id new_starter_id request_id : Nat) (t : Datetime)
    (uc : UserCreate) (name code title ty : String) (cat : ToolCategory)
    (ct : ContentType) (e f l : String) (d : Datetime) :
    (userFromCreate i t uc).is_active = true ∧
    (userFromCreate i t uc).id = some i ∧
    (projectFromCreate i t user_id (ProjectCreate.ofRequired name code)).is_active = true ∧
    (projectFromCreate i t user_id (ProjectCreate.ofRequired name code)).settings = [] ∧
    (projectFromCreate i t user_id (ProjectCreate.ofRequired name code)).description = "" ∧
    (membershipFromCreate i t (ProjectMembershipCreate.ofRequired user_id project_id)).role = .team_member ∧
    (membershipFromCreate i t (ProjectMembershipCreate.ofRequired user_id project_id)).is_active = true ∧
    (toolFromCreate i t (ToolCreate.ofRequired name cat)).embed_config = [] ∧
    (toolFromCreate i t (ToolCreate.ofRequired name cat)).is_active = true ∧
    (mkProjectTool i t project_id tool_id).configuration = [] ∧
    (mkProjectTool i t project_id tool_id).required_roles = [] ∧
    (mkProjectTool i t project_id tool_id).is_enabled = true ∧
    (nsrFromCreate i t manager_id
        (NewStarterRequestCreate.ofRequired project_id e f l d)).role = .team_member ∧
    (nsrFromCreate i t manager_id
        (NewStarterRequestCreate.ofRequired project_id e f l d)).status = .pending ∧
    (onboardingFromCreate i t new_starter_id
        (OnboardingDetailsCreate.ofRequired request_id)).skills = [] ∧
    (onboardingFromCreate i t new_starter_id
        (OnboardingDetailsCreate.ofRequired request_id)).certifications = [] ∧
    (onboardingFromCreate i t new_starter_id
        (OnboardingDetailsCreate.ofRequired request_id)).additional_info = [] ∧
    (chapterFromCreate i t (InductionChapterCreate.ofRequired project_id title)).is_active = true ∧
    (sectionFromCreate i t (InductionSectionCreate.ofRequired chapter_id title)).is_active = true ∧
    (contentFromCreate i t (InductionContentCreate.ofRequired section_id ct)).content_metadata = [] ∧
    (contentFromCreate i t (InductionContentCreate.ofRequired section_id ct)).is_active = true ∧
    (mkInductionProgress i user_id chapter_id).status = .not_started ∧
    (mkInductionProgress i user_id chapter_id).completion_percentage = ⟨0, 0⟩ ∧
    (dashboardFromCreate i t (DashboardCreate.ofRequired project_id name ty)).configuration = [] ∧
    (dashboardFromCreate i t (DashboardCreate.ofRequired project_id name ty)).required_roles = [] ∧
    (dashboardFromCreate i t (DashboardCreate.ofRequired project_id name ty)).is_active = true := by
  repeat first | apply And.intro | rfl

/-- C8: `completion_percentage` accepts exactly `0`, `50.25` and `100`
as written; any representation with more than two decimal places is
rejected; and the model imposes no upper bound of 100 — every value
above 100 written with two decimal places and at most five digits is
accepted. -/
theorem completion_percentage_bounds :
    completionPercentageOk ⟨0, 0⟩ = true ∧
    completionPercentageOk ⟨5025, -2⟩ = true ∧
    completionPercentageOk ⟨100, 0⟩ = true ∧
    (∀ d : Dec, d.exponent < -2 → completionPercentageOk d = false) ∧
    (∀ m : Int, 10000 < m → digitsLen m.natAbs ≤ 5 →
        completionPercentageOk ⟨m, -2⟩ = true) := by
  refine ⟨rfl, rfl, rfl, fun d h => ?_, fun m hm hd => ?_⟩
  · simp only [completionPercentageOk, decimalOk]
    have h0 : ¬ (0 ≤ d.exponent) := by omega
    have h3 : ¬ (d.exponent.natAbs ≤ 2) := by omega
    simp [h0, h3]
  · have h0 : ¬ ((0 : Int) ≤ -2) := by omega
    have h2 : ((-2 : Int)).natAbs = 2 := rfl
    simp [completionPercentageOk, decimalOk, h0, h2, Bool.and_eq_true,
      decide_eq_true_eq]
    omega

/-- C8 instance: `123.456` (three decimal places) is rejected while
`100.01` (above 100, five digits, two decimal places) is accepted. -/
theorem completion_percentage_bounds_inst :
    completionPercentageOk ⟨123456, -3⟩ = false ∧
    completionPercentageOk ⟨10001, -2⟩ = true :=
  ⟨completion_percentage_bounds.2.2.2.1 ⟨123456, -3⟩ (by decide),
   completion_percentage_bounds.2.2.2.2 10001 (by decide) (by decide)⟩

/-- C9: `starter_email` carries no format constraint — validating a
`NewStarterRequestCreate` is exactly its length bounds, so a payload
whose `starter_email` is not email-shaped passes, in contrast to
`User.email`, whose pattern makes the same string fail `User`
validation. -/
theorem starter_email_not_format_checked :
    (∀ c : NewStarterRequestCreate, validateNewStarterRequestCreate c = true ↔
        (maxLenOk 255 c.starter_email = true ∧
         maxLenOk 100 c.starter_first_name = true ∧
         maxLenOk 100 c.starter_last_name = true ∧
         optLenOk 100 c.department = true ∧ optLenOk 100 c.position = true ∧
         optLenOk 200 c.line_manager = true ∧ optLenOk 1000 c.notes = true)) ∧
    validateNewStarterRequestCreate
      (NewStarterRequestCreate.ofRequired 1 "not-an-email" "Sam" "Starter" 0) = true ∧
    emailMatch "not-an-email" = false ∧
    validateUser ⟨none, "not-an-email", "Sam", "Starter", true, 0, none⟩ = false := by
  refine ⟨fun c => ?_, rfl, rfl, rfl⟩
  simp [validateNewStarterRequestCreate, Bool.and_eq_true, and_assoc]

/-- C10: `ProjectUpdate` has no `code` field and `UserUpdate` has no
`email` field, so no declared update can change a project's `code` or a
user's `email` (nor the primary keys or `created_by_id`). -/
theorem update_shapes_immutable_fields (u : User) (uu : UserUpdate)
    (p : Project) (pu : ProjectUpdate) :
    (applyProjectUpdate p pu).code = p.code ∧
    (applyProjectUpdate p pu).id = p.id ∧
    (applyProjectUpdate p pu).created_by_id = p.created_by_id ∧
    (applyUserUpdate u uu).email = u.email ∧
    (applyUserUpdate u uu).id = u.id :=
  ⟨rfl, rfl, rfl, rfl, rfl⟩

end Portal
